import Mathlib

/-
Verification of the greenhouse monitoring alerting / issue-lifecycle engine.

The embedding follows the source: `check_*` range validators from utils.py,
the reading-submission handler `input_form` (POST branch) and the
`resolve_issue` handler from app.py, the `NORMAL_*` baseline values from
config.py, and the data model from models/. Numeric metric values are
modelled as rationals (the source reads them through Python `float(...)`;
none of the verified properties depend on binary rounding), timestamps as
naturals supplied explicitly where the source calls `datetime.utcnow()`.
-/

namespace GreenTech

/-- A reading with the six environmental metrics (the six POSTed form fields). -/
structure Reading where
  temperature : ℚ
  humidity : ℚ
  co2 : ℚ
  light_intensity : ℚ
  soil_ph : ℚ
  soil_moisture : ℚ
deriving DecidableEq

/-- models/enviromental_data.py: EnvironmentalData row. -/
structure EnvironmentalData where
  greenhouse_id : ℕ
  temperature : ℚ
  humidity : ℚ
  co2 : ℚ
  light_intensity : ℚ
  soil_ph : ℚ
  soil_moisture : ℚ
  timestamp : ℕ
  source : String
deriving DecidableEq

/-- models/issue.py: Issue row (status defaults to 'Ongoing', resolved_at nullable). -/
structure Issue where
  id : ℕ
  greenhouse_id : ℕ
  description : String
  status : String
  created_at : ℕ
  resolved_at : Option ℕ
deriving DecidableEq

/-- models/greenhouse.py: Greenhouse row (the fields the verified logic reads). -/
structure Greenhouse where
  id : ℕ
  name : String
  location : String
deriving DecidableEq

/-- models/employee.py: Employee row (the fields the verified logic reads).
`email` is `none` where Python would see a falsy `emp.email`. -/
structure Employee where
  id : ℕ
  email : Option String
  available : Bool
  greenhouse_id : Option ℕ
  is_admin : Bool
deriving DecidableEq

/-- The persisted store the handlers read and write. -/
structure AppState where
  greenhouses : List Greenhouse
  employees : List Employee
  issues : List Issue
  envData : List EnvironmentalData
deriving DecidableEq

/-! config.py application-specific settings. -/

def NORMAL_TEMP : ℚ := 22.5
def NORMAL_HUMIDITY : ℚ := 50.0
def NORMAL_CO2 : ℚ := 700.0
def NORMAL_LIGHT : ℚ := 5000.0
def NORMAL_PH : ℚ := 6.5
def NORMAL_MOISTURE : ℚ := 45.0

/-! utils.py range validators. -/

def check_temperature (temperature : ℚ) : Bool :=
  decide (20 ≤ temperature ∧ temperature ≤ 25)

def check_humidity (humidity : ℚ) : Bool :=
  decide (40 ≤ humidity ∧ humidity ≤ 60)

def check_co2 (co2 : ℚ) : Bool :=
  decide (400 ≤ co2 ∧ co2 ≤ 1000)

def check_light_intensity (light_intensity : ℚ) : Bool :=
  decide (1000 ≤ light_intensity ∧ light_intensity ≤ 10000)

def check_soil_ph (soil_ph : ℚ) : Bool :=
  decide (6 ≤ soil_ph ∧ soil_ph ≤ 7)

def check_soil_moisture (soil_moisture : ℚ) : Bool :=
  decide (30 ≤ soil_moisture ∧ soil_moisture ≤ 60)

/-! app.py `input_form` POST branch: violation messages, issue description,
persisted rows, notification preparation. -/

def temp_msg (t : ℚ) : String :=
  "Temperature " ++ toString t ++ "°C is out of range (20-25°C)."

def humidity_msg (h : ℚ) : String :=
  "Humidity " ++ toString h ++ "% is out of range (40-60%)."

def co2_msg (c : ℚ) : String :=
  "CO2 " ++ toString c ++ " ppm is out of range (400-1000 ppm)."

def light_msg (l : ℚ) : String :=
  "Light Intensity " ++ toString l ++ " lux is out of range (1000-10000 lux)."

def ph_msg (p : ℚ) : String :=
  "Soil pH " ++ toString p ++ " is out of range (6.0-7.0)."

def moisture_msg (m : ℚ) : String :=
  "Soil Moisture " ++ toString m ++ "% is out of range (30-60%)."

/-- The `issue_description_parts` list built by the six sequential checks in
`input_form` (app.py lines 266-277), in source order. -/
def issue_description_parts (r : Reading) : List String :=
  (if check_temperature r.temperature then [] else [temp_msg r.temperature]) ++
  (if check_humidity r.humidity then [] else [humidity_msg r.humidity]) ++
  (if check_co2 r.co2 then [] else [co2_msg r.co2]) ++
  (if check_light_intensity r.light_intensity then [] else [light_msg r.light_intensity]) ++
  (if check_soil_ph r.soil_ph then [] else [ph_msg r.soil_ph]) ++
  (if check_soil_moisture r.soil_moisture then [] else [moisture_msg r.soil_moisture])

/-- `full_issue_description` (app.py line 282). -/
def full_issue_description (gh : Greenhouse) (r : Reading) : String :=
  "Alert for Greenhouse '" ++ gh.name ++ "' (" ++ gh.location ++ "):\n- " ++
    String.intercalate "\n- " (issue_description_parts r)

/-- The `new_data` EnvironmentalData row persisted for every submission
(app.py lines 255-262). -/
def manual_data (gid : ℕ) (r : Reading) (now : ℕ) : EnvironmentalData :=
  { greenhouse_id := gid
    temperature := r.temperature
    humidity := r.humidity
    co2 := r.co2
    light_intensity := r.light_intensity
    soil_ph := r.soil_ph
    soil_moisture := r.soil_moisture
    timestamp := now
    source := "manual" }

/-- Autoincrement primary key for a freshly inserted Issue. -/
def next_issue_id (s : AppState) : ℕ :=
  (s.issues.foldl (fun m i => max m i.id) 0) + 1

/-- `recipient_emails` (app.py line 296): employees assigned to the
greenhouse with a truthy email and available=True. -/
def eligible_recipients (s : AppState) (gid : ℕ) : List String :=
  (s.employees.filter (fun e => e.greenhouse_id == some gid)).filterMap
    (fun e => match e.email with
      | some m => if e.available then some m else none
      | none => none)

/-- One prepared outbound email (an element of `notifications_to_send`). -/
structure Notification where
  subject : String
  recipients : List String
  body : String
deriving DecidableEq

/-- What the POST handler reports back to the caller. -/
structure RecordResult where
  issueCreated : Bool
  notifications : List Notification
  noRecipientsWarning : Bool
deriving DecidableEq

/-- app.py `input_form` POST branch (lines 241-311): always persists the
manual reading; when any validator fails, also creates one `Ongoing` Issue
and prepares at most one notification, warning instead when no eligible
recipient exists. -/
def input_form_post (s : AppState) (gh : Greenhouse) (r : Reading) (now : ℕ) :
    AppState × RecordResult :=
  let new_data := manual_data gh.id r now
  let parts := issue_description_parts r
  if parts.isEmpty then
    ({ s with envData := s.envData ++ [new_data] },
     { issueCreated := false, notifications := [], noRecipientsWarning := false })
  else
    let desc := full_issue_description gh r
    let new_issue : Issue :=
      { id := next_issue_id s
        greenhouse_id := gh.id
        description := desc
        status := "Ongoing"
        created_at := now
        resolved_at := none }
    let recipient_emails := eligible_recipients s gh.id
    ({ s with
        envData := s.envData ++ [new_data]
        issues := s.issues ++ [new_issue] },
     { issueCreated := true
       notifications :=
         if recipient_emails.isEmpty then []
         else [{ subject := "Alert: GreenHouse Notification For '" ++ gh.name ++ "'"
                 recipients := recipient_emails
                 body := desc ++ "\n\nPlease investigate and resolve the issue." }]
       noRecipientsWarning := recipient_emails.isEmpty })

/-- The `can_resolve` permission check (app.py lines 352-354): admin, or the
issue's greenhouse exists and equals the acting employee's assignment. -/
def can_resolve (s : AppState) (emp : Employee) (issue : Issue) : Bool :=
  emp.is_admin ||
    ((s.greenhouses.any (fun gh => gh.id == issue.greenhouse_id)) &&
      (match emp.greenhouse_id with
       | some gid => issue.greenhouse_id == gid
       | none => false))

/-- The `normal_data` baseline row appended on resolution
(app.py lines 365-375), using the config.py NORMAL_* values. -/
def normal_data (gid : ℕ) (now : ℕ) : EnvironmentalData :=
  { greenhouse_id := gid
    temperature := NORMAL_TEMP
    humidity := NORMAL_HUMIDITY
    co2 := NORMAL_CO2
    light_intensity := NORMAL_LIGHT
    soil_ph := NORMAL_PH
    soil_moisture := NORMAL_MOISTURE
    timestamp := now
    source := "resolution" }

/-- Outcome reported by the resolve handler. -/
inductive ResolveResult where
  | notFound
  | permissionDenied
  | resolved
  | alreadyResolved
deriving DecidableEq

/-- app.py `resolve_issue` handler (lines 345-386). -/
def resolve_issue (s : AppState) (emp : Employee) (issue_id : ℕ) (now : ℕ) :
    AppState × ResolveResult :=
  match s.issues.find? (fun i => i.id == issue_id) with
  | none => (s, ResolveResult.notFound)
  | some issue =>
    if can_resolve s emp issue then
      if issue.status == "Ongoing" then
        ({ s with
            issues := s.issues.map (fun i =>
              if i.id == issue_id then
                { i with status := "Resolved", resolved_at := some now }
              else i)
            envData := s.envData ++ [normal_data issue.greenhouse_id now] },
         ResolveResult.resolved)
      else (s, ResolveResult.alreadyResolved)
    else (s, ResolveResult.permissionDenied)

/-! app.py `dashboard` ordering (lines 118-142). -/

/-- `has_ongoing_issue` for one greenhouse (app.py line 119). -/
def has_ongoing_issue (s : AppState) (gid : ℕ) : Bool :=
  s.issues.any (fun i => i.greenhouse_id == gid && i.status == "Ongoing")

/-- `sort_key` (app.py lines 138-139). -/
def sort_key (s : AppState) (gh : Greenhouse) : ℕ × ℕ :=
  ((if has_ongoing_issue s gh.id then 0 else 1), gh.id)

/-- Python tuple comparison of two sort keys (lexicographic ≤). -/
def dash_le (s : AppState) (a b : Greenhouse) : Prop :=
  (sort_key s a).1 < (sort_key s b).1 ∨
    ((sort_key s a).1 = (sort_key s b).1 ∧ (sort_key s a).2 ≤ (sort_key s b).2)

instance (s : AppState) : DecidableRel (dash_le s) := fun a b => by
  unfold dash_le; infer_instance

instance (s : AppState) : IsTotal Greenhouse (dash_le s) :=
  ⟨fun a b => by unfold dash_le; omega⟩

instance (s : AppState) : IsTrans Greenhouse (dash_le s) :=
  ⟨fun a b c => by unfold dash_le; omega⟩

/-- `sorted(..., key=sort_key)[:4]` (app.py lines 141-142): a stable sort by
the key, then the first four. Keys are injective in the id component, so any
sort agrees with Python's stable Timsort here. -/
def dashboard_display (s : AppState) : List Greenhouse :=
  (s.greenhouses.insertionSort (dash_le s)).take 4

/-- The Issue resolution-timestamp invariant from the spec's data model. -/
def issue_inv (i : Issue) : Prop :=
  i.resolved_at.isSome = true ↔ i.status = "Resolved"

instance (i : Issue) : Decidable (issue_inv i) := by
  unfold issue_inv; infer_instance

/-- View an EnvironmentalData row as a reading, to re-run the validators on it. -/
def reading_of_data (d : EnvironmentalData) : Reading :=
  { temperature := d.temperature
    humidity := d.humidity
    co2 := d.co2
    light_intensity := d.light_intensity
    soil_ph := d.soil_ph
    soil_moisture := d.soil_moisture }

/-- The six checks paired with their messages, in the handler's fixed order. -/
def metric_checks (r : Reading) : List (Bool × String) :=
  [(check_temperature r.temperature, temp_msg r.temperature),
   (check_humidity r.humidity, humidity_msg r.humidity),
   (check_co2 r.co2, co2_msg r.co2),
   (check_light_intensity r.light_intensity, light_msg r.light_intensity),
   (check_soil_ph r.soil_ph, ph_msg r.soil_ph),
   (check_soil_moisture r.soil_moisture, moisture_msg r.soil_moisture)]

/-! Concrete example data used to instantiate the verified properties. -/

def exGreenhouse : Greenhouse := ⟨1, "Alpha", "North wing"⟩

def exAdmin : Employee := ⟨1, some "admin@greentech.example", true, none, true⟩

def exOutsider : Employee := ⟨2, some "bob@greentech.example", true, some 2, false⟩

def exOngoingIssue : Issue := ⟨1, 1, "desc", "Ongoing", 0, none⟩

def exResolvedIssue : Issue := ⟨2, 1, "desc", "Resolved", 0, some 3⟩

def exStateOngoing : AppState := ⟨[exGreenhouse], [exAdmin], [exOngoingIssue], []⟩

def exStateResolved : AppState := ⟨[exGreenhouse], [exAdmin], [exResolvedIssue], []⟩

def exNoRecipState : AppState := ⟨[exGreenhouse], [], [], []⟩

/-- Temperature 19 and humidity 70 out of range, the other four metrics in range. -/
def exBadReading : Reading := ⟨19, 70, 700, 5000, 7, 45⟩

/-- Greenhouses A-D with ids 1-4; B and C have an Ongoing issue. -/
def dashExample : AppState :=
  ⟨[⟨1, "A", "L1"⟩, ⟨2, "B", "L2"⟩, ⟨3, "C", "L3"⟩, ⟨4, "D", "L4"⟩],
   [],
   [⟨1, 2, "d", "Ongoing", 0, none⟩, ⟨2, 3, "d", "Ongoing", 0, none⟩],
   []⟩

/-! Helper lemmas shared by the claims. -/

theorem parts_eq_filter_map (r : Reading) :
    issue_description_parts r =
      ((metric_checks r).filter (fun p => !p.1)).map Prod.snd := by
  unfold issue_description_parts metric_checks
  cases check_temperature r.temperature <;>
    cases check_humidity r.humidity <;>
    cases check_co2 r.co2 <;>
    cases check_light_intensity r.light_intensity <;>
    cases check_soil_ph r.soil_ph <;>
    cases check_soil_moisture r.soil_moisture <;> rfl

theorem parts_nil_iff (r : Reading) :
    issue_description_parts r = [] ↔
      (check_temperature r.temperature ∧ check_humidity r.humidity ∧
       check_co2 r.co2 ∧ check_light_intensity r.light_intensity ∧
       check_soil_ph r.soil_ph ∧ check_soil_moisture r.soil_moisture) := by
  unfold issue_description_parts
  cases check_temperature r.temperature <;>
    cases check_humidity r.humidity <;>
    cases check_co2 r.co2 <;>
    cases check_light_intensity r.light_intensity <;>
    cases check_soil_ph r.soil_ph <;>
    cases check_soil_moisture r.soil_moisture <;> simp

/-- C2: each of the six range validators accepts exactly the values inside its
fixed bounds, both endpoints inclusive (temperature [20,25], humidity [40,60],
CO2 [400,1000], light [1000,10000], soil pH [6,7], soil moisture [30,60]);
in particular temperature 20 and 25 pass while 19.99 and 25.01 fail. -/
theorem claim_C2_range_validators :
    (∀ v : ℚ, check_temperature v = true ↔ (20 ≤ v ∧ v ≤ 25)) ∧
    (∀ v : ℚ, check_humidity v = true ↔ (40 ≤ v ∧ v ≤ 60)) ∧
    (∀ v : ℚ, check_co2 v = true ↔ (400 ≤ v ∧ v ≤ 1000)) ∧
    (∀ v : ℚ, check_light_intensity v = true ↔ (1000 ≤ v ∧ v ≤ 10000)) ∧
    (∀ v : ℚ, check_soil_ph v = true ↔ (6 ≤ v ∧ v ≤ 7)) ∧
    (∀ v : ℚ, check_soil_moisture v = true ↔ (30 ≤ v ∧ v ≤ 60)) ∧
    check_temperature 20 = true ∧ check_temperature 25 = true ∧
    check_temperature 19.99 = false ∧ check_temperature 25.01 = false := by
  refine ⟨fun v => ?_, fun v => ?_, fun v => ?_, fun v => ?_, fun v => ?_, fun v => ?_,
    ?_, ?_, ?_, ?_⟩
  · simp [check_temperature]
  · simp [check_humidity]
  · simp [check_co2]
  · simp [check_light_intensity]
  · simp [check_soil_ph]
  · simp [check_soil_moisture]
  · norm_num [check_temperature]
  · norm_num [check_temperature]
  · norm_num [check_temperature]
  · norm_num [check_temperature]

/-- C3: the violation-string sequence contains exactly one string per failing
metric, in the fixed order temperature, humidity, CO2, light, pH, moisture
(it equals the failing entries of the ordered check list, keeping their
messages), and the example reading with temperature=19 and humidity=70 and the
rest in range yields exactly the two strings, temperature first. -/
theorem claim_C3_evaluator_order :
    (∀ r : Reading,
      issue_description_parts r =
        ((metric_checks r).filter (fun p => !p.1)).map Prod.snd) ∧
    (∀ r : Reading,
      (issue_description_parts r).length =
        ((metric_checks r).filter (fun p => !p.1)).length) ∧
    issue_description_parts exBadReading = [temp_msg 19, humidity_msg 70] := by
  refine ⟨parts_eq_filter_map, fun r => ?_, ?_⟩
  · rw [parts_eq_filter_map, List.length_map]
  · rfl

/-- C10: every configured baseline value is accepted by its validator, hence a
source='resolution' row always evaluates to zero violations. -/
theorem claim_C10_baseline_in_range :
    check_temperature NORMAL_TEMP = true ∧
    check_humidity NORMAL_HUMIDITY = true ∧
    check_co2 NORMAL_CO2 = true ∧
    check_light_intensity NORMAL_LIGHT = true ∧
    check_soil_ph NORMAL_PH = true ∧
    check_soil_moisture NORMAL_MOISTURE = true ∧
    ∀ gid now : ℕ,
      issue_description_parts (reading_of_data (normal_data gid now)) = [] := by
  have h1 : check_temperature NORMAL_TEMP = true := by
    norm_num [check_temperature, NORMAL_TEMP]
  have h2 : check_humidity NORMAL_HUMIDITY = true := by
    norm_num [check_humidity, NORMAL_HUMIDITY]
  have h3 : check_co2 NORMAL_CO2 = true := by
    norm_num [check_co2, NORMAL_CO2]
  have h4 : check_light_intensity NORMAL_LIGHT = true := by
    norm_num [check_light_intensity, NORMAL_LIGHT]
  have h5 : check_soil_ph NORMAL_PH = true := by
    norm_num [check_soil_ph, NORMAL_PH]
  have h6 : check_soil_moisture NORMAL_MOISTURE = true := by
    norm_num [check_soil_moisture, NORMAL_MOISTURE]
  refine ⟨h1, h2, h3, h4, h5, h6, fun gid now => ?_⟩
  exact (parts_nil_iff _).mpr ⟨h1, h2, h3, h4, h5, h6⟩

/-- C1: every submission persists the reading with source='manual', and exactly
one Issue — status 'Ongoing', description the joined violation strings prefixed
with the greenhouse name and location — is created iff at least one of the six
validators fails; with all six in range the issue list is unchanged. -/
theorem claim_C1_record_reading (s : AppState) (gh : Greenhouse) (r : Reading) (now : ℕ) :
    (input_form_post s gh r now).1.envData = s.envData ++ [manual_data gh.id r now] ∧
    (manual_data gh.id r now).source = "manual" ∧
    (input_form_post s gh r now).1.issues =
      (if issue_description_parts r = [] then s.issues
       else s.issues ++
         [{ id := next_issue_id s
            greenhouse_id := gh.id
            description := full_issue_description gh r
            status := "Ongoing"
            created_at := now
            resolved_at := none }]) ∧
    full_issue_description gh r =
      "Alert for Greenhouse '" ++ gh.name ++ "' (" ++ gh.location ++ "):\n- " ++
        String.intercalate "\n- " (issue_description_parts r) ∧
    (issue_description_parts r = [] ↔
      (check_temperature r.temperature ∧ check_humidity r.humidity ∧
       check_co2 r.co2 ∧ check_light_intensity r.light_intensity ∧
       check_soil_ph r.soil_ph ∧ check_soil_moisture r.soil_moisture)) := by
  refine ⟨?_, rfl, ?_, rfl, parts_nil_iff r⟩
  · cases hp : (issue_description_parts r).isEmpty <;>
      simp [input_form_post, hp]
  · cases hp : (issue_description_parts r).isEmpty <;>
      simp_all [input_form_post, List.isEmpty_iff]

/-- C4: resolving an Ongoing issue with permission reports success, rewrites
exactly that issue to status 'Resolved' with resolved_at set to the (non-null)
current time, which is at least created_at, and appends exactly one baseline
EnvironmentalData row for the issue's greenhouse with source='resolution' and
the configured normal values. -/
theorem claim_C4_resolve_ongoing (s : AppState) (emp : Employee) (issue : Issue) (now : ℕ)
    (hfind : s.issues.find? (fun i => i.id == issue.id) = some issue)
    (hperm : can_resolve s emp issue = true)
    (hstatus : issue.status = "Ongoing")
    (hclock : issue.created_at ≤ now) :
    (resolve_issue s emp issue.id now).2 = ResolveResult.resolved ∧
    (resolve_issue s emp issue.id now).1.issues =
      s.issues.map (fun i =>
        if i.id == issue.id then
          { i with status := "Resolved", resolved_at := some now }
        else i) ∧
    { issue with status := "Resolved", resolved_at := some now } ∈
      (resolve_issue s emp issue.id now).1.issues ∧
    ({ issue with status := "Resolved", resolved_at := some now }).resolved_at = some now ∧
    ({ issue with status := "Resolved", resolved_at := some now }).created_at ≤ now ∧
    (resolve_issue s emp issue.id now).1.envData =
      s.envData ++ [normal_data issue.greenhouse_id now] ∧
    (normal_data issue.greenhouse_id now).source = "resolution" ∧
    (normal_data issue.greenhouse_id now).greenhouse_id = issue.greenhouse_id ∧
    (normal_data issue.greenhouse_id now).temperature = 22.5 ∧
    (normal_data issue.greenhouse_id now).humidity = 50.0 ∧
    (normal_data issue.greenhouse_id now).co2 = 700.0 ∧
    (normal_data issue.greenhouse_id now).light_intensity = 5000.0 ∧
    (normal_data issue.greenhouse_id now).soil_ph = 6.5 ∧
    (normal_data issue.greenhouse_id now).soil_moisture = 45.0 := by
  have hres : resolve_issue s emp issue.id now =
      ({ s with
          issues := s.issues.map (fun i =>
            if i.id == issue.id then
              { i with status := "Resolved", resolved_at := some now }
            else i)
          envData := s.envData ++ [normal_data issue.greenhouse_id now] },
       ResolveResult.resolved) := by
    simp [resolve_issue, hfind, hperm, hstatus]
  have hmem : { issue with status := "Resolved", resolved_at := some now } ∈
      (resolve_issue s emp issue.id now).1.issues := by
    rw [hres]
    have h0 : issue ∈ s.issues := List.mem_of_find?_eq_some hfind
    have := List.mem_map_of_mem (fun i =>
      if i.id == issue.id then
        { i with status := "Resolved", resolved_at := some now }
      else i) h0
    simpa using this
  exact ⟨by rw [hres], by rw [hres], hmem, rfl, hclock, by rw [hres], rfl, rfl,
    rfl, rfl, rfl, rfl, rfl, rfl⟩

/-- C5: a permitted resolve attempt on an issue whose status is already
'Resolved' leaves the whole state unchanged (no status or resolved_at change,
no appended rows) and reports 'already resolved' instead of an error. -/
theorem claim_C5_resolve_noop (s : AppState) (emp : Employee) (issue : Issue) (now : ℕ)
    (hfind : s.issues.find? (fun i => i.id == issue.id) = some issue)
    (hperm : can_resolve s emp issue = true)
    (hstatus : issue.status = "Resolved") :
    resolve_issue s emp issue.id now = (s, ResolveResult.alreadyResolved) := by
  simp [resolve_issue, hfind, hperm, hstatus]

/-- C6: a resolve attempt on an existing issue (whose greenhouse exists) is
permitted exactly when the actor is an admin or is assigned to the issue's
greenhouse; when not permitted the handler reports PermissionDenied and leaves
the state unchanged. -/
theorem claim_C6_resolve_permission (s : AppState) (emp : Employee) (issue : Issue) (now : ℕ)
    (hfind : s.issues.find? (fun i => i.id == issue.id) = some issue)
    (hgh : s.greenhouses.any (fun gh => gh.id == issue.greenhouse_id) = true) :
    (can_resolve s emp issue = true ↔
      (emp.is_admin = true ∨ emp.greenhouse_id = some issue.greenhouse_id)) ∧
    (can_resolve s emp issue = false →
      resolve_issue s emp issue.id now = (s, ResolveResult.permissionDenied)) := by
  constructor
  · cases hgid : emp.greenhouse_id with
    | none => simp [can_resolve, hgh, hgid]
    | some gid =>
      simp only [can_resolve, hgh, hgid, Bool.true_and, Bool.or_eq_true,
        beq_iff_eq, Option.some.injEq]
      constructor
      · rintro (h | h)
        · exact Or.inl h
        · exact Or.inr h.symm
      · rintro (h | h)
        · exact Or.inl h
        · exact Or.inr h.symm
  · intro h
    simp [resolve_issue, hfind, h]

/-- C7: the dashboard shows the first 4 greenhouses of the list sorted by the
key (0 if the greenhouse has an Ongoing issue else 1, id ascending): the
displayed list is the 4-prefix of a sorted permutation of all greenhouses, and
on the example [A(no issue), B(ongoing), C(ongoing), D(no issue)] with ids 1-4
the display order is [B, C, A, D]. -/
theorem claim_C7_dashboard (s : AppState) :
    dashboard_display s = (s.greenhouses.insertionSort (dash_le s)).take 4 ∧
    (s.greenhouses.insertionSort (dash_le s)).Sorted (dash_le s) ∧
    (s.greenhouses.insertionSort (dash_le s)).Perm s.greenhouses ∧
    (dashboard_display dashExample).map Greenhouse.name = ["B", "C", "A", "D"] :=
  ⟨rfl, List.sorted_insertionSort _ _, List.perm_insertionSort _ _, by decide⟩

/-- C8: the resolved_at-iff-Resolved invariant is preserved by both core
operations: if every issue of the state satisfies it, every issue after a
reading submission and after a resolve attempt still satisfies it (new issues
are Ongoing with null resolved_at; resolve sets status and timestamp together). -/
theorem claim_C8_issue_invariant (s : AppState) (gh : Greenhouse) (r : Reading)
    (emp : Employee) (iid now : ℕ)
    (hinv : ∀ i ∈ s.issues, issue_inv i) :
    (∀ i ∈ (input_form_post s gh r now).1.issues, issue_inv i) ∧
    (∀ i ∈ (resolve_issue s emp iid now).1.issues, issue_inv i) := by
  constructor
  · intro i hi
    cases hp : (issue_description_parts r).isEmpty <;>
      simp [input_form_post, hp] at hi
    · rcases hi with hi | hi
      · exact hinv i hi
      · subst hi
        simp [issue_inv]
    · exact hinv i hi
  · intro i hi
    unfold resolve_issue at hi
    cases hfind : s.issues.find? (fun j => j.id == iid) with
    | none =>
      rw [hfind] at hi
      exact hinv i hi
    | some issue =>
      rw [hfind] at hi
      by_cases hperm : can_resolve s emp issue = true
      · by_cases hstat : (issue.status == "Ongoing") = true
        · simp only [hperm, hstat, if_true] at hi
          simp only [List.mem_map] at hi
          rcases hi with ⟨j, hj, rfl⟩
          by_cases hid : (j.id == iid) = true
          · simp [hid, issue_inv]
          · simp only [hid, if_false]
            simpa using hinv j hj
        · simp only [hperm, hstat, if_true, if_false] at hi
          exact hinv i hi
      · simp only [hperm, if_false] at hi
        exact hinv i hi

/-- C9: a reading that opens an issue for a greenhouse with no eligible
recipient (assigned, available, with an email) still persists both the reading
and the Ongoing issue, prepares no notification, and surfaces the
no-recipients warning instead of an error. -/
theorem claim_C9_empty_recipients (s : AppState) (gh : Greenhouse) (r : Reading) (now : ℕ)
    (hviol : issue_description_parts r ≠ [])
    (hrec : eligible_recipients s gh.id = []) :
    (input_form_post s gh r now).1.envData = s.envData ++ [manual_data gh.id r now] ∧
    (input_form_post s gh r now).1.issues =
      s.issues ++
        [{ id := next_issue_id s
           greenhouse_id := gh.id
           description := full_issue_description gh r
           status := "Ongoing"
           created_at := now
           resolved_at := none }] ∧
    (input_form_post s gh r now).2.issueCreated = true ∧
    (input_form_post s gh r now).2.notifications = [] ∧
    (input_form_post s gh r now).2.noRecipientsWarning = true := by
  have hp : (issue_description_parts r).isEmpty = false := by
    simpa [List.isEmpty_iff] using hviol
  refine ⟨?_, ?_, ?_, ?_, ?_⟩ <;> simp [input_form_post, hp, hrec]

/-! Closed instantiations of the hypothesis-bearing properties. -/

/-- Witness for C4 on a concrete Ongoing issue resolved by an admin at time 5. -/
theorem claim_C4_resolve_ongoing_witness :
    exOngoingIssue.status = "Ongoing" ∧ exOngoingIssue.created_at ≤ 5 ∧
    (resolve_issue exStateOngoing exAdmin exOngoingIssue.id 5).2 = ResolveResult.resolved :=
  ⟨rfl, by decide,
    (claim_C4_resolve_ongoing exStateOngoing exAdmin exOngoingIssue 5 rfl rfl rfl
      (by decide)).1⟩

/-- Witness for C5 on a concrete already-Resolved issue. -/
theorem claim_C5_resolve_noop_witness :
    exResolvedIssue.status = "Resolved" ∧
    resolve_issue exStateResolved exAdmin exResolvedIssue.id 5 =
      (exStateResolved, ResolveResult.alreadyResolved) :=
  ⟨rfl, claim_C5_resolve_noop exStateResolved exAdmin exResolvedIssue 5 rfl rfl rfl⟩

/-- Witness for C6 on a concrete non-admin employee assigned to a different
greenhouse than the issue's. -/
theorem claim_C6_resolve_permission_witness :
    (can_resolve exStateOngoing exOutsider exOngoingIssue = true ↔
      (exOutsider.is_admin = true ∨
        exOutsider.greenhouse_id = some exOngoingIssue.greenhouse_id)) ∧
    (can_resolve exStateOngoing exOutsider exOngoingIssue = false →
      resolve_issue exStateOngoing exOutsider exOngoingIssue.id 5 =
        (exStateOngoing, ResolveResult.permissionDenied)) :=
  claim_C6_resolve_permission exStateOngoing exOutsider exOngoingIssue 5 rfl rfl

/-- Witness for C8 on a concrete invariant-satisfying state. -/
theorem claim_C8_issue_invariant_witness :
    (∀ i ∈ (input_form_post exStateOngoing exGreenhouse exBadReading 6).1.issues,
      issue_inv i) ∧
    (∀ i ∈ (resolve_issue exStateOngoing exAdmin 1 6).1.issues, issue_inv i) :=
  claim_C8_issue_invariant exStateOngoing exGreenhouse exBadReading exAdmin 1 6
    (by decide)

/-- Witness for C9 on a concrete out-of-range reading for a greenhouse with no
assigned employees. -/
theorem claim_C9_empty_recipients_witness :
    issue_description_parts exBadReading ≠ [] ∧
    eligible_recipients exNoRecipState exGreenhouse.id = [] ∧
    (input_form_post exNoRecipState exGreenhouse exBadReading 6).2.issueCreated = true ∧
    (input_form_post exNoRecipState exGreenhouse exBadReading 6).2.notifications = [] ∧
    (input_form_post exNoRecipState exGreenhouse exBadReading 6).2.noRecipientsWarning = true := by
  have h := claim_C9_empty_recipients exNoRecipState exGreenhouse exBadReading 6
    (by decide) rfl
  exact ⟨by decide, rfl, h.2.2.1, h.2.2.2.1, h.2.2.2.2⟩

end GreenTech
